import Mathlib

/-!
Shallow embedding of the autonomous incident detection and recovery subsystem
(`docs/next-gen/autonomous-recovery-system.py`) of the arduino-cicd-guide
repository, together with theorems settling the specification claims about it.

Conventions of the embedding:
* Python `dict` telemetry snapshots become a structure of `Option ℚ` fields,
  one per metric key the source reads; a missing key is `none` and
  `dict.get(k, d)` becomes `Option.getD`.
* Python floats become `ℚ` (all comparisons in the source are exact decimal
  comparisons; NaN never arises for the inputs the claims quantify over).
* Numeric-to-text interpolation in symptom messages uses `toString` on `ℚ`;
  the exact digits of the rendered number are irrelevant to every claim
  (keyword matching only inspects the alphabetic part of the messages).
* Fallible external calls (Kubernetes, MQTT, GPT, health checks) become
  `Except String α` values supplied by an environment; `try/except` blocks
  of the source become `match` on those values.
-/

/-- The `IncidentSeverity` enum of the source (values 1..5). -/
inductive IncidentSeverity where
  | LOW
  | MEDIUM
  | HIGH
  | CRITICAL
  | CATASTROPHIC
deriving DecidableEq, Repr

/-- Numeric value of each severity, as assigned by the Python enum. -/
def IncidentSeverity.value : IncidentSeverity → Nat
  | .LOW => 1
  | .MEDIUM => 2
  | .HIGH => 3
  | .CRITICAL => 4
  | .CATASTROPHIC => 5

/-- ASCII lower-casing of a string, modelling Python `str.lower()` on the
ASCII message texts the source manipulates. -/
def strToLower (s : String) : String := String.mk (s.data.map Char.toLower)

/-- Boolean substring test on character lists: `containsSub needle hay` is
true when `needle` occurs contiguously in `hay`. Models Python `in` on
strings. -/
def containsSub (needle : List Char) : List Char → Bool
  | [] => needle.isEmpty
  | c :: rest => needle.isPrefixOf (c :: rest) || containsSub needle rest

/-- `strContains hay needle` models Python `needle in hay`. -/
def strContains (hay needle : String) : Bool :=
  containsSub needle.data hay.data

/-- A telemetry snapshot: the metric keys read by `_detect_symptoms`,
`_assess_severity` and `detect_incident`. A `none` field models an absent
dictionary key. -/
structure DeviceData where
  device_id : Option String := none
  battery_voltage : Option ℚ := none
  temperature : Option ℚ := none
  humidity : Option ℚ := none
  pressure : Option ℚ := none
  memory_usage : Option ℚ := none
  cpu_usage : Option ℚ := none
  error_count : Option ℚ := none
  wifi_signal_strength : Option ℚ := none
  uptime_hours : Option ℚ := none
deriving DecidableEq

/-- `_detect_symptoms`: threshold rules producing symptom message strings, in
source order. The final block models the sensor-validity loop over the dict
literal `{temperature, humidity, pressure}`: a missing reading renders as
`None` (a NaN reading cannot arise in the rational-valued model). -/
def detectSymptoms (dd : DeviceData) : List String :=
  let battery_voltage := dd.battery_voltage.getD 0
  let s1 := if battery_voltage < 3.2 then
    ["Low battery voltage: " ++ toString battery_voltage ++ "V"] else []
  let temperature := dd.temperature.getD 0
  let s2 := if 50 < temperature ∨ temperature < -10 then
    ["Extreme temperature: " ++ toString temperature ++ "°C"] else []
  let memory_usage := dd.memory_usage.getD 0
  let s3 := if 90 < memory_usage then
    ["High memory usage: " ++ toString memory_usage ++ "%"] else []
  let cpu_usage := dd.cpu_usage.getD 0
  let s4 := if 95 < cpu_usage then
    ["High CPU usage: " ++ toString cpu_usage ++ "%"] else []
  let error_count := dd.error_count.getD 0
  let s5 := if 10 < error_count then
    ["High error count: " ++ toString error_count] else []
  let wifi_signal := dd.wifi_signal_strength.getD 0
  let s6 := if wifi_signal < -80 then
    ["Weak WiFi signal: " ++ toString wifi_signal ++ "dBm"] else []
  let uptime_hours := dd.uptime_hours.getD 0
  let s7 := if uptime_hours < 0.1 then
    ["Frequent reboots detected: uptime " ++ toString uptime_hours ++ "h"] else []
  let s8 := match dd.temperature with
    | none => ["Invalid temperature reading: None"]
    | some _ => []
  let s9 := match dd.humidity with
    | none => ["Invalid humidity reading: None"]
    | some _ => []
  let s10 := match dd.pressure with
    | none => ["Invalid pressure reading: None"]
    | some _ => []
  s1 ++ s2 ++ s3 ++ s4 ++ s5 ++ s6 ++ s7 ++ s8 ++ s9 ++ s10

/-- The `critical_keywords` list of `_assess_severity`. -/
def criticalKeywords : List String := ["battery", "temperature", "memory", "reboot"]

/-- Per-symptom score contribution of the `_assess_severity` loop: 2 when any
critical keyword occurs in the lower-cased symptom text, else 1. -/
def symptomWeight (symptom : String) : Nat :=
  if criticalKeywords.any (fun keyword => strContains (strToLower symptom) keyword)
  then 2 else 1

/-- The symptom-loop accumulation of `_assess_severity` (`severity_score`
before the device-criticality adjustment). -/
def baseScore (symptoms : List String) : Nat :=
  symptoms.foldl (fun acc symptom => acc + symptomWeight symptom) 0

/-- The device-criticality test of `_assess_severity`:
`'critical' in device_id.lower() or 'production' in device_id.lower()`,
with `device_id = device_data.get('device_id', '')`. -/
def isCriticalDevice (dd : DeviceData) : Bool :=
  let device_id := strToLower (dd.device_id.getD (""))
  strContains device_id ("critical") || strContains device_id ("production")

/-- `severity_score` after the conditional `*= 1.5` of `_assess_severity`. -/
def severityScore (symptoms : List String) (dd : DeviceData) : ℚ :=
  let s : ℚ := (baseScore symptoms : ℚ)
  if isCriticalDevice dd then s * 1.5 else s

/-- The threshold ladder at the end of `_assess_severity`. -/
def scoreToSeverity (score : ℚ) : IncidentSeverity :=
  if 10 ≤ score then .CATASTROPHIC
  else if 7 ≤ score then .CRITICAL
  else if 4 ≤ score then .HIGH
  else if 2 ≤ score then .MEDIUM
  else .LOW

/-- `_assess_severity(symptoms, device_data)`. -/
def assessSeverity (symptoms : List String) (dd : DeviceData) : IncidentSeverity :=
  scoreToSeverity (severityScore symptoms dd)

/-- The `RecoveryAction` enum of the source. -/
inductive RecoveryAction where
  | RESTART_SERVICE
  | REBOOT_DEVICE
  | RECALIBRATE_SENSORS
  | UPDATE_FIRMWARE
  | SCALE_RESOURCES
  | NETWORK_RESET
  | FACTORY_RESET
  | REPLACE_HARDWARE
  | MANUAL_INTERVENTION
deriving DecidableEq, Repr

/-- String value of each `RecoveryAction` enum member. -/
def RecoveryAction.value : RecoveryAction → String
  | .RESTART_SERVICE => "restart_service"
  | .REBOOT_DEVICE => "reboot_device"
  | .RECALIBRATE_SENSORS => "recalibrate_sensors"
  | .UPDATE_FIRMWARE => "update_firmware"
  | .SCALE_RESOURCES => "scale_resources"
  | .NETWORK_RESET => "network_reset"
  | .FACTORY_RESET => "factory_reset"
  | .REPLACE_HARDWARE => "replace_hardware"
  | .MANUAL_INTERVENTION => "manual_intervention"

/-- One entry of a recovery plan: the dict literal fields used by
`_generate_recovery_plan` and `execute_recovery`. -/
structure PlanStep where
  step : Nat
  action : String
  description : String
  estimated_time : Nat
  risk_level : String
deriving DecidableEq, Repr

/-- The unconditional first entry of every recovery plan. -/
def diagStep : PlanStep :=
  { step := 1, action := "diagnostic_check",
    description := "Perform comprehensive diagnostic check",
    estimated_time := 2, risk_level := "low" }

/-- Step 2 of the battery branch of `_generate_recovery_plan`. -/
def batteryRestartStep : PlanStep :=
  { step := 2, action := RecoveryAction.RESTART_SERVICE.value,
    description := "Restart power management service",
    estimated_time := 1, risk_level := "low" }

/-- Step 3 of the battery branch of `_generate_recovery_plan`. -/
def batteryOptStep : PlanStep :=
  { step := 3, action := "battery_optimization",
    description := "Optimize power consumption settings",
    estimated_time := 5, risk_level := "medium" }

/-- The targeted branch of `_generate_recovery_plan`: steps 2 and 3 chosen by
the `if/elif` keyword chain over the lower-cased root cause; the final `else`
adds nothing. -/
def targetedSteps (rc : String) : List PlanStep :=
  let low := strToLower rc
  if strContains low ("battery") then
    [batteryRestartStep, batteryOptStep]
  else if strContains low ("temperature") then
    [{ step := 2, action := "cooling_check",
       description := "Check cooling system and ventilation",
       estimated_time := 3, risk_level := "low" },
     { step := 3, action := RecoveryAction.RECALIBRATE_SENSORS.value,
       description := "Recalibrate temperature sensors",
       estimated_time := 5, risk_level := "medium" }]
  else if strContains low ("memory") || strContains low ("cpu") then
    [{ step := 2, action := RecoveryAction.RESTART_SERVICE.value,
       description := "Restart affected services",
       estimated_time := 2, risk_level := "low" },
     { step := 3, action := "memory_cleanup",
       description := "Clear memory leaks and optimize usage",
       estimated_time := 3, risk_level := "medium" }]
  else if strContains low ("reboot") || strContains low ("crash") then
    [{ step := 2, action := RecoveryAction.UPDATE_FIRMWARE.value,
       description := "Update to stable firmware version",
       estimated_time := 10, risk_level := "medium" },
     { step := 3, action := "stability_test",
       description := "Run stability test for 30 minutes",
       estimated_time := 30, risk_level := "low" }]
  else if strContains low ("wifi") || strContains low ("network") then
    [{ step := 2, action := RecoveryAction.NETWORK_RESET.value,
       description := "Reset network configuration",
       estimated_time := 3, risk_level := "medium" },
     { step := 3, action := "network_optimization",
       description := "Optimize WiFi settings and antenna",
       estimated_time := 5, risk_level := "low" }]
  else []

/-- The `MANUAL_INTERVENTION` step appended at position `n + 1` when severity
is CRITICAL or above. -/
def manualStep (n : Nat) : PlanStep :=
  { step := n + 1, action := RecoveryAction.MANUAL_INTERVENTION.value,
    description := "Request immediate manual intervention",
    estimated_time := 30, risk_level := "low" }

/-- `_generate_recovery_plan(root_cause, severity)`. -/
def generateRecoveryPlan (root_cause : String) (severity : IncidentSeverity) : List PlanStep :=
  let plan := diagStep :: targetedSteps root_cause
  if IncidentSeverity.CRITICAL.value ≤ severity.value then
    plan ++ [manualStep plan.length]
  else plan

/-- Python `str.strip()` on the ASCII texts of the model. -/
def strTrim (s : String) : String :=
  String.mk (((s.data.dropWhile Char.isWhitespace).reverse.dropWhile Char.isWhitespace).reverse)

/-- The constant returned by the `except` clause of `_analyze_root_cause`. -/
def rootCauseFallback : String := "Unable to determine root cause due to analysis error"

/-- `_analyze_root_cause`: the GPT call is an external capability that either
returns a completion text or raises; the `except` clause maps any exception
to the fallback cause string. -/
def analyzeRootCause (gpt : Except String String) : String :=
  match gpt with
  | .ok content => strTrim content
  | .error _ => rootCauseFallback

/-- The `IncidentReport` dataclass (fields used by the claims; timestamps are
abstract environment-supplied values). -/
structure IncidentReport where
  incident_id : String
  device_id : String
  incident_type : String
  severity : IncidentSeverity
  detection_time : Nat
  symptoms : List String
  root_cause : String
  recovery_plan : List PlanStep
  estimated_recovery_time : Nat
  business_impact : String
  stakeholders : List String

/-- Observable side effects of `detect_incident` relevant to the claims:
persisting the incident record and sending the immediate alert. -/
inductive DetectEffect where
  | recorded (inc : IncidentReport)
  | alerted (inc : IncidentReport)

/-- Modelled from the spec: environment for `detect_incident`. The helpers
`_classify_incident_type`, `_estimate_recovery_time`,
`_assess_business_impact` and `_identify_stakeholders` are called by
`detect_incident` but are nowhere defined in the repository; per §2/§6 they
are ancillary classification/estimation collaborators, modelled as total
functions supplied here. `gpt` is the external completion call consumed by
`_analyze_root_cause`; `timestamp`/`now` stand for the wall clock. -/
structure DetectEnv where
  gpt : Except String String
  classify : List String → String
  estimate : List PlanStep → Nat
  businessImpact : String → IncidentSeverity → String
  stakeholders : String → IncidentSeverity → List String
  timestamp : String
  now : Nat

/-- `detect_incident(device_data)`: returns the optional incident report and
the list of side effects performed. The guard `if not device_id` is Python
truthiness: it fires when the key is absent or the value is the empty
string. -/
def detectIncident (dd : DeviceData) (env : DetectEnv) :
    Option IncidentReport × List DetectEffect :=
  match dd.device_id with
  | none => (none, [])
  | some device_id =>
    if device_id = "" then (none, [])
    else
      let symptoms := detectSymptoms dd
      if symptoms = [] then (none, [])
      else
        let severity := assessSeverity symptoms dd
        let root_cause := analyzeRootCause env.gpt
        let recovery_plan := generateRecoveryPlan root_cause severity
        let inc : IncidentReport :=
          { incident_id := "INC-" ++ env.timestamp ++ "-" ++ device_id,
            device_id := device_id,
            incident_type := env.classify symptoms,
            severity := severity,
            detection_time := env.now,
            symptoms := symptoms,
            root_cause := root_cause,
            recovery_plan := recovery_plan,
            estimated_recovery_time := env.estimate recovery_plan,
            business_impact := env.businessImpact device_id severity,
            stakeholders := env.stakeholders device_id severity }
        let effects :=
          if IncidentSeverity.CRITICAL.value ≤ severity.value then
            [DetectEffect.recorded inc, DetectEffect.alerted inc]
          else [DetectEffect.recorded inc]
        (some inc, effects)

/-- Result dict returned by every per-action handler of the source
(`{success, status}` plus the optional `error` key added on failure). -/
structure ActionResult where
  success : Bool
  status : String
  error : Option String
deriving DecidableEq, Repr

/-- Success status text of each handler (`_restart_service` ..
`_request_manual_intervention`). -/
def RecoveryAction.okStatus : RecoveryAction → String
  | .RESTART_SERVICE => "Service restarted successfully"
  | .REBOOT_DEVICE => "Device reboot initiated"
  | .RECALIBRATE_SENSORS => "Sensor recalibration initiated"
  | .UPDATE_FIRMWARE => "Firmware update initiated"
  | .SCALE_RESOURCES => "Resources scaled successfully"
  | .NETWORK_RESET => "Network reset initiated"
  | .FACTORY_RESET => "Factory reset initiated"
  | .REPLACE_HARDWARE => "Hardware replacement request created"
  | .MANUAL_INTERVENTION => "Manual intervention requested"

/-- Failure status text of the `except` clause of each handler. -/
def RecoveryAction.failStatus : RecoveryAction → String
  | .RESTART_SERVICE => "Service restart failed"
  | .REBOOT_DEVICE => "Device reboot failed"
  | .RECALIBRATE_SENSORS => "Sensor recalibration failed"
  | .UPDATE_FIRMWARE => "Firmware update failed"
  | .SCALE_RESOURCES => "Resource scaling failed"
  | .NETWORK_RESET => "Network reset failed"
  | .FACTORY_RESET => "Factory reset failed"
  | .REPLACE_HARDWARE => "Hardware replacement request failed"
  | .MANUAL_INTERVENTION => "Manual intervention request failed"

/-- A defined recovery-action handler (`self.recovery_actions[...]`): the
`try` body performs the external capability call `cap`; on success it returns
the success dict, and the `except` clause converts any raised exception into
the failure dict. The handler itself never raises. -/
def dispatchKnown (a : RecoveryAction) (cap : Except String Unit) : ActionResult :=
  match cap with
  | .ok _ => { success := true, status := a.okStatus, error := none }
  | .error e => { success := false, status := a.failStatus, error := some e }

/-- The membership test `action in [ra.value for ra in RecoveryAction]`
followed by `RecoveryAction(action)`. -/
def stringToAction (action : String) : Option RecoveryAction :=
  match action with
  | "restart_service" => some .RESTART_SERVICE
  | "reboot_device" => some .REBOOT_DEVICE
  | "recalibrate_sensors" => some .RECALIBRATE_SENSORS
  | "update_firmware" => some .UPDATE_FIRMWARE
  | "scale_resources" => some .SCALE_RESOURCES
  | "network_reset" => some .NETWORK_RESET
  | "factory_reset" => some .FACTORY_RESET
  | "replace_hardware" => some .REPLACE_HARDWARE
  | "manual_intervention" => some .MANUAL_INTERVENTION
  | _ => none

/-- External behaviour of one loop iteration of `execute_recovery`:
`cap` is the capability interaction inside the known-action handler;
`custom` is `_execute_custom_action` (modelled from the spec: that method is
called for non-enum actions but is nowhere defined in the repository —
per §4.5 it is a capability call returning a status or raising);
`verify` is `_verify_recovery_step` (modelled from the spec: also undefined
in the repository — per §4.5/§6 it is a `HealthCheck` poll returning a
boolean or raising). -/
structure StepBehavior where
  cap : Except String Unit
  custom : Except String String
  verify : Except String Bool

/-- Accumulated loop state of `execute_recovery`: the `actions_taken` and
`lessons_learned` lists and the `manual_intervention` flag. -/
structure LoopOut where
  actions : List String
  lessons : List String
  manual : Bool
deriving DecidableEq, Repr

/-- One iteration of the recovery-plan loop, including the inner
`try/except`: a known action dispatches through its (non-raising) handler and
appends `description: status`; a custom action appends its status or, when it
raises, the `FAILED` entry from the `except` clause; the per-step
verification runs inside the same `try`, so an exception it raises appends a
second `FAILED` entry for the step. -/
def runStep (st : PlanStep) (b : StepBehavior) : LoopOut :=
  match stringToAction st.action with
  | some a =>
    let res := dispatchKnown a b.cap
    let manual := a = RecoveryAction.MANUAL_INTERVENTION
    let entry := st.description ++ ": " ++ res.status
    let less1 := if res.success then []
      else ["Failed action: " ++ st.description ++ " - " ++ (res.error.getD ("Unknown error"))]
    match b.verify with
    | .ok true => ⟨[entry], less1, manual⟩
    | .ok false =>
      ⟨[entry], less1 ++ ["Verification failed for: " ++ st.description], manual⟩
    | .error e =>
      ⟨[entry, st.description ++ ": FAILED - " ++ e],
       less1 ++ ["Exception in " ++ st.description ++ ": " ++ e], manual⟩
  | none =>
    match b.custom with
    | .ok status =>
      let entry := st.description ++ ": " ++ status
      match b.verify with
      | .ok true => ⟨[entry], [], false⟩
      | .ok false => ⟨[entry], ["Verification failed for: " ++ st.description], false⟩
      | .error e =>
        ⟨[entry, st.description ++ ": FAILED - " ++ e],
         ["Exception in " ++ st.description ++ ": " ++ e], false⟩
    | .error e =>
      ⟨[st.description ++ ": FAILED - " ++ e],
       ["Exception in " ++ st.description ++ ": " ++ e], false⟩

/-- The whole recovery-plan loop; the behaviour of iteration `i` is `env i`. -/
def execSteps : List PlanStep → (Nat → StepBehavior) → LoopOut
  | [], _ => ⟨[], [], false⟩
  | st :: rest, env =>
    let o1 := runStep st (env 0)
    let o2 := execSteps rest (fun n => env (n + 1))
    ⟨o1.actions ++ o2.actions, o1.lessons ++ o2.lessons, o1.manual || o2.manual⟩

/-- The first `actions_taken` entry a plan step always contributes. -/
def stepFirstEntry (st : PlanStep) (b : StepBehavior) : String :=
  match stringToAction st.action with
  | some a => st.description ++ ": " ++ (dispatchKnown a b.cap).status
  | none =>
    match b.custom with
    | .ok status => st.description ++ ": " ++ status
    | .error e => st.description ++ ": FAILED - " ++ e

/-- The `RecoveryResult` dataclass. -/
structure RecoveryResult where
  incident_id : String
  success : Bool
  actions_taken : List String
  recovery_time : Nat
  ai_confidence : ℚ
  manual_intervention : Bool
  lessons_learned : List String
  follow_up_actions : List String

/-- External behaviour of one `execute_recovery` run. `impact` is
`_analyze_dependency_impact` and `finalVerify` is `_verify_full_recovery`
(modelled from the spec: both are called but nowhere defined in the
repository — per §4.4/§4.5 a dependency-graph query and a `HealthCheck`
capability, either of which may raise). `confidence`, `followUps` and
`minutes` model `_calculate_ai_confidence`, `_generate_follow_up_actions`
and the wall clock (modelled from the spec: the first two are undefined in
the repository and are internal computations, not capability calls; the
recording/learning/notification helpers after them catch their own errors
per §7 and are effect-only, so they do not appear in the result value). -/
structure ExecEnv where
  impact : Except String Bool
  stepBeh : Nat → StepBehavior
  finalVerify : Except String Bool
  confidence : ℚ
  followUps : List String
  minutes : Nat

/-- `execute_recovery(incident)` with its outer `try/except`. The return
type is `Except` so that an exception escaping the orchestrator boundary
would be visible as an `Except.error`; every raising path of the model is
caught exactly where the source catches it. -/
def executeRecoveryE (inc : IncidentReport) (env : ExecEnv) :
    Except String RecoveryResult :=
  let finish := fun (actions lessons : List String) (success manual : Bool) =>
    Except.ok
      { incident_id := inc.incident_id,
        success := success,
        actions_taken := actions,
        recovery_time := env.minutes,
        ai_confidence := env.confidence,
        manual_intervention := manual,
        lessons_learned := lessons,
        follow_up_actions := env.followUps : RecoveryResult }
  match env.impact with
  | .error e =>
    finish ["Critical error during recovery: " ++ e]
      ["Recovery process exception: " ++ e] false false
  | .ok highRisk =>
    let l0 := if highRisk then
      ["High dependency risk detected - proceeding with caution"] else []
    let o := execSteps inc.recovery_plan env.stepBeh
    match env.finalVerify with
    | .error e =>
      finish (o.actions ++ ["Critical error during recovery: " ++ e])
        (l0 ++ o.lessons ++ ["Recovery process exception: " ++ e]) false o.manual
    | .ok ok =>
      finish o.actions
        (l0 ++ o.lessons ++ if ok then [] else ["Full recovery verification failed"])
        ok o.manual

/-- Modelled from the spec: the Incident lifecycle states of §4.6. The
orchestrator state machine is absent from the repository's code — the
`IncidentReport` dataclass has no `state` field and `execute_recovery`
performs no state transitions — so the state set is taken from the spec's
enumeration `DETECTED → DIAGNOSING → PLANNING → EXECUTING → VERIFYING →
{RESOLVED | ESCALATED | FAILED}`. -/
inductive IncState where
  | DETECTED
  | DIAGNOSING
  | PLANNING
  | EXECUTING
  | VERIFYING
  | RESOLVED
  | ESCALATED
  | FAILED
deriving DecidableEq, Repr, Fintype

/-- The spec's enumeration of the Incident states, in order. -/
def allIncStates : List IncState :=
  [.DETECTED, .DIAGNOSING, .PLANNING, .EXECUTING, .VERIFYING,
   .RESOLVED, .ESCALATED, .FAILED]

/-- The terminal states of §4.6. -/
def IncState.isTerminal : IncState → Bool
  | .RESOLVED => true
  | .ESCALATED => true
  | .FAILED => true
  | _ => false

/-- Modelled from the spec: the per-Incident orchestrator configuration of
§3/§4.6 restricted to the fields the claims are about — the single active
state and the retry counter. -/
structure OrchConfig where
  state : IncState
  attempt_count : Nat
deriving DecidableEq, Repr

/-- Modelled from the spec: labels for the events driving §4.6 transitions
(diagnosis result, plan selection, action completion, health-check outcome,
escalation triggers, unrecoverable internal error). -/
inductive OrchLabel where
  | detectDone
  | diagnoseDone
  | planDone
  | execDone
  | verifyPass
  | verifyFail
  | escalationTrigger
  | internalError
deriving DecidableEq, Repr

/-- Modelled from the spec: the automatic transition relation of §4.6,
parameterised by the configured `max_attempts`. The `escalate` and
`internalFail` rules cover the "any state → ESCALATED/FAILED" clauses; their
remaining firing conditions (severity CATASTROPHIC at DETECTED, persistently
low analyzer confidence, capability unavailable) depend on data outside this
configuration, so the rules over-approximate by allowing the event from any
non-terminal state — sound for the safety properties proved below. -/
inductive OrchStep (max_attempts : Nat) : OrchLabel → OrchConfig → OrchConfig → Prop where
  | detect_to_diag (n : Nat) :
      OrchStep max_attempts .detectDone ⟨.DETECTED, n⟩ ⟨.DIAGNOSING, n⟩
  | diag_to_plan (n : Nat) :
      OrchStep max_attempts .diagnoseDone ⟨.DIAGNOSING, n⟩ ⟨.PLANNING, n⟩
  | plan_to_exec (n : Nat) :
      OrchStep max_attempts .planDone ⟨.PLANNING, n⟩ ⟨.EXECUTING, n⟩
  | exec_to_verify (n : Nat) :
      OrchStep max_attempts .execDone ⟨.EXECUTING, n⟩ ⟨.VERIFYING, n⟩
  | verify_to_resolved (n : Nat) :
      OrchStep max_attempts .verifyPass ⟨.VERIFYING, n⟩ ⟨.RESOLVED, n⟩
  | verify_retry (n : Nat) (h : n < max_attempts) :
      OrchStep max_attempts .verifyFail ⟨.VERIFYING, n⟩ ⟨.PLANNING, n + 1⟩
  | verify_exhausted (n : Nat) (h : max_attempts ≤ n) :
      OrchStep max_attempts .verifyFail ⟨.VERIFYING, n⟩ ⟨.ESCALATED, n⟩
  | escalate (s : IncState) (n : Nat) (h : s.isTerminal = false) :
      OrchStep max_attempts .escalationTrigger ⟨s, n⟩ ⟨.ESCALATED, n⟩
  | internalFail (s : IncState) (n : Nat) (h : s.isTerminal = false) :
      OrchStep max_attempts .internalError ⟨s, n⟩ ⟨.FAILED, n⟩

/-- Configurations reachable by automatic transitions from a fresh Incident
(state DETECTED, `attempt_count = 0`). -/
def Reaches (max_attempts : Nat) (c : OrchConfig) : Prop :=
  Relation.ReflTransGen
    (fun a b => ∃ l, OrchStep max_attempts l a b) ⟨.DETECTED, 0⟩ c

/-- The severity score written the way the spec states the algorithm:
`Σ(symptom.severity_weight) * device_criticality_multiplier`, with the
per-symptom weights and the multiplier the claim attributes to the
implementation. -/
def specSeverityScore (symptoms : List String) (dd : DeviceData) : ℚ :=
  ((symptoms.map symptomWeight).sum : ℚ) *
    (if isCriticalDevice dd then 1.5 else 1)

/-- The clip to the 5-level ordinal scale, written the way the spec states
the fixed thresholds. -/
def specScoreClip (score : ℚ) : IncidentSeverity :=
  if 10 ≤ score then .CATASTROPHIC
  else if 7 ≤ score then .CRITICAL
  else if 4 ≤ score then .HIGH
  else if 2 ≤ score then .MEDIUM
  else .LOW

/-- The spec's severity-assessment algorithm, to be compared with the
source-derived `assessSeverity`. -/
def specAssessSeverity (symptoms : List String) (dd : DeviceData) : IncidentSeverity :=
  specScoreClip (specSeverityScore symptoms dd)

/-- Scenario A snapshot family: `battery_voltage = 3.1`, every other metric
present with a value supplied by the quantifiers of the scenario theorem. -/
def scenarioASnapshot (did : Option String) (vt vh vp vm vc ve vw vu : ℚ) : DeviceData :=
  { device_id := did,
    battery_voltage := some 3.1,
    temperature := some vt,
    humidity := some vh,
    pressure := some vp,
    memory_usage := some vm,
    cpu_usage := some vc,
    error_count := some ve,
    wifi_signal_strength := some vw,
    uptime_hours := some vu }

/-- A snapshot whose `device_id` key is present but holds the empty string. -/
def emptyIdSnapshot : DeviceData := { device_id := some ("") }

/-- A snapshot with a device id and an otherwise empty metrics map. -/
def emptyMetricsSnapshot : DeviceData := { device_id := some ("dev-1") }

/-- A snapshot with no keys at all. -/
def blankSnapshot : DeviceData := {}

/-- A concrete detection environment used by concrete evaluations. -/
def demoDetectEnv : DetectEnv :=
  { gpt := Except.error ("api offline"),
    classify := fun _ => "hardware_failure",
    estimate := fun _ => 0,
    businessImpact := fun _ _ => "low",
    stakeholders := fun _ _ => [],
    timestamp := "20260101000000",
    now := 0 }

/-- A concrete step behaviour in which every external call raises. -/
def demoBehavior : StepBehavior :=
  { cap := Except.error ("kubernetes unavailable"),
    custom := Except.error ("no such action"),
    verify := Except.error ("health check timeout") }

/-! Helper lemmas shared by the claim theorems. -/

theorem foldl_add_symptomWeight (symptoms : List String) (a : Nat) :
    symptoms.foldl (fun acc symptom => acc + symptomWeight symptom) a
      = a + (symptoms.map symptomWeight).sum := by
  induction symptoms generalizing a with
  | nil => simp
  | cons s rest ih =>
    simp only [List.foldl_cons, List.map_cons, List.sum_cons, ih, Nat.add_assoc]

theorem baseScore_eq_sum (symptoms : List String) :
    baseScore symptoms = (symptoms.map symptomWeight).sum := by
  unfold baseScore
  rw [foldl_add_symptomWeight]
  simp

theorem baseScore_append (S : List String) (s : String) :
    baseScore (S ++ [s]) = baseScore S + symptomWeight s := by
  simp [baseScore_eq_sum]

theorem one_le_symptomWeight (s : String) : 1 ≤ symptomWeight s := by
  unfold symptomWeight
  split <;> omega

theorem scoreToSeverity_mono {q r : ℚ} (h : q ≤ r) :
    (scoreToSeverity q).value ≤ (scoreToSeverity r).value := by
  unfold scoreToSeverity
  split_ifs <;> simp only [IncidentSeverity.value] <;>
    first
    | omega
    | (exfalso; linarith)

theorem severityScore_append_le (S : List String) (s : String) (dd : DeviceData) :
    severityScore S dd ≤ severityScore (S ++ [s]) dd := by
  unfold severityScore
  have hb := baseScore_append S s
  have hw : (0 : ℚ) ≤ (symptomWeight s : ℚ) := by positivity
  split_ifs with hc
  · rw [hb]
    push_cast
    nlinarith
  · rw [hb]
    push_cast
    linarith

theorem lowBattery_mem_detect (dd : DeviceData) (hb : dd.battery_voltage = none) :
    ("Low battery voltage: " ++ toString (0 : ℚ) ++ "V") ∈ detectSymptoms dd := by
  simp only [detectSymptoms, hb, Option.getD_none]
  rw [if_pos (by norm_num : (0 : ℚ) < 3.2)]
  exact List.mem_append_left _ (List.mem_append_left _ (List.mem_append_left _
    (List.mem_append_left _ (List.mem_append_left _ (List.mem_append_left _
      (List.mem_append_left _ (List.mem_append_left _ (List.mem_append_left _
        (List.mem_singleton_self _)))))))))

theorem frequentReboots_mem_detect (dd : DeviceData) (hu : dd.uptime_hours = none) :
    ("Frequent reboots detected: uptime " ++ toString (0 : ℚ) ++ "h") ∈ detectSymptoms dd := by
  simp only [detectSymptoms, hu, Option.getD_none]
  rw [if_pos (by norm_num : (0 : ℚ) < 0.1)]
  exact List.mem_append_left _ (List.mem_append_left _ (List.mem_append_left _
    (List.mem_append_right _ (List.mem_singleton_self _))))

theorem stepFirstEntry_mem_runStep (st : PlanStep) (b : StepBehavior) :
    stepFirstEntry st b ∈ (runStep st b).actions := by
  unfold stepFirstEntry runStep
  cases hsa : stringToAction st.action with
  | some a =>
    cases b.verify with
    | ok v => cases v <;> simp
    | error e => simp
  | none =>
    cases b.custom with
    | ok status =>
      cases b.verify with
      | ok v => cases v <;> simp
      | error e => simp
    | error e => simp

/-! Claim theorems. -/

/-- C3: severity assessment is monotonic non-decreasing in the symptom list —
for every device snapshot, symptom list and added symptom, the severity of
the extended list is at least the severity of the original list in the
ordinal order encoded by `IncidentSeverity.value`. -/
theorem severity_monotone_in_symptoms (dd : DeviceData) (S : List String) (s : String) :
    (assessSeverity S dd).value ≤ (assessSeverity (S ++ [s]) dd).value := by
  unfold assessSeverity
  exact scoreToSeverity_mono (severityScore_append_le S s dd)

/-- C4: the assessed severity equals the spec's algorithm — the sum of the
per-symptom severity weights times the device-criticality multiplier, clipped
to the 5-level ordinal scale by the fixed thresholds. -/
theorem assessSeverity_eq_spec (symptoms : List String) (dd : DeviceData) :
    assessSeverity symptoms dd = specAssessSeverity symptoms dd := by
  have hs : severityScore symptoms dd = specSeverityScore symptoms dd := by
    unfold severityScore specSeverityScore
    rw [baseScore_eq_sum]
    cases hc : isCriticalDevice dd <;> simp [hc]
  unfold assessSeverity specAssessSeverity
  rw [hs]
  rfl

/-- C1 (amended: the spec's state enumeration has eight members, not nine):
every Incident state is exactly one of the defined states
DETECTED, DIAGNOSING, PLANNING, EXECUTING, VERIFYING, RESOLVED, ESCALATED,
FAILED (each state occurs exactly once in the enumeration and a
configuration carries a single state field), no automatic transition leaves
a terminal state, and the terminal states RESOLVED, ESCALATED and FAILED are
mutually exclusive. -/
theorem incident_states_terminal_exclusive :
    (∀ s : IncState, allIncStates.count s = 1)
    ∧ (∀ (max_attempts : Nat) (l : OrchLabel) (c c' : OrchConfig),
        c.state.isTerminal = true → ¬ OrchStep max_attempts l c c')
    ∧ (IncState.RESOLVED ≠ IncState.ESCALATED
        ∧ IncState.RESOLVED ≠ IncState.FAILED
        ∧ IncState.ESCALATED ≠ IncState.FAILED) := by
  refine ⟨?_, ?_, by decide⟩
  · intro s
    cases s <;> decide
  · intro max_attempts l c c' hterm hstep
    cases hstep <;> simp_all [IncState.isTerminal]

/-- Witness for C1: the terminal state RESOLVED admits no automatic
transition, applied at a concrete configuration. -/
theorem incident_states_terminal_exclusive_witness :
    ¬ OrchStep 3 OrchLabel.detectDone ⟨IncState.RESOLVED, 0⟩ ⟨IncState.DIAGNOSING, 0⟩ :=
  incident_states_terminal_exclusive.2.1 3 OrchLabel.detectDone
    ⟨IncState.RESOLVED, 0⟩ ⟨IncState.DIAGNOSING, 0⟩ rfl

/-- Counterexample for C1 as stated: the defined Incident state set has
eight elements, not nine. -/
theorem incident_states_count_eight :
    Fintype.card IncState = 8 ∧ Fintype.card IncState ≠ 9 :=
  ⟨by decide, by decide⟩

/-- C2: on every automatic run of the orchestrator the attempt counter never
exceeds `max_attempts`; a step changes the counter only on a
VERIFYING→PLANNING transition (the failed-verification retry), where it is
incremented by exactly 1; and once `attempt_count` has reached
`max_attempts`, a failed verification is forced into ESCALATED instead of
retrying. -/
theorem attempt_count_bounded :
    (∀ (max_attempts : Nat) (c : OrchConfig),
        Reaches max_attempts c → c.attempt_count ≤ max_attempts)
    ∧ (∀ (max_attempts : Nat) (l : OrchLabel) (c c' : OrchConfig),
        OrchStep max_attempts l c c' →
          c'.attempt_count = c.attempt_count
          ∨ (c.state = IncState.VERIFYING ∧ c'.state = IncState.PLANNING
              ∧ l = OrchLabel.verifyFail
              ∧ c'.attempt_count = c.attempt_count + 1))
    ∧ (∀ (max_attempts n : Nat) (c' : OrchConfig), max_attempts ≤ n →
        OrchStep max_attempts OrchLabel.verifyFail ⟨IncState.VERIFYING, n⟩ c' →
          c' = ⟨IncState.ESCALATED, n⟩) := by
  refine ⟨?_, ?_, ?_⟩
  · intro max_attempts c h
    induction h with
    | refl => exact Nat.zero_le _
    | tail _ hstep ih =>
      obtain ⟨l, hs⟩ := hstep
      cases hs <;> first | (simp_all; omega) | simp_all
  · intro max_attempts l c c' hs
    cases hs <;>
      first
      | exact Or.inl rfl
      | exact Or.inr ⟨rfl, rfl, rfl, rfl⟩
  · intro max_attempts n c' hmax hs
    cases hs with
    | verify_retry _ h => omega
    | verify_exhausted _ _ => rfl

/-- Witness for C2: the bound applied on a concrete one-step run with
`max_attempts = 3`. -/
theorem attempt_count_bounded_witness :
    (⟨IncState.DIAGNOSING, 0⟩ : OrchConfig).attempt_count ≤ 3 :=
  attempt_count_bounded.1 3 ⟨IncState.DIAGNOSING, 0⟩
    (Relation.ReflTransGen.single ⟨OrchLabel.detectDone, OrchStep.detect_to_diag 0⟩)

/-- C5: for every root cause and severity at least CRITICAL the generated
plan ends in a MANUAL_INTERVENTION action, and for every severity strictly
below CRITICAL no step of the generated plan is a MANUAL_INTERVENTION
action, in every branch of the planner. -/
theorem manual_intervention_last (rc : String) (sev : IncidentSeverity) :
    (IncidentSeverity.CRITICAL.value ≤ sev.value →
      ∃ st, (generateRecoveryPlan rc sev).getLast? = some st
        ∧ st.action = RecoveryAction.MANUAL_INTERVENTION.value)
    ∧ (sev.value < IncidentSeverity.CRITICAL.value →
      ∀ st ∈ generateRecoveryPlan rc sev,
        st.action ≠ RecoveryAction.MANUAL_INTERVENTION.value) := by
  constructor
  · intro h
    unfold generateRecoveryPlan
    rw [if_pos h]
    exact ⟨manualStep _, List.getLast?_concat _, rfl⟩
  · intro h st hst
    unfold generateRecoveryPlan at hst
    rw [if_neg (Nat.not_le.mpr h)] at hst
    rcases List.mem_cons.mp hst with rfl | hst
    · decide
    · simp only [targetedSteps] at hst
      split_ifs at hst <;>
        simp only [List.mem_cons, List.not_mem_nil, or_false] at hst <;>
        rcases hst with rfl | rfl <;> decide

/-- Witness for C5: at LOW severity the diagnostic step of a battery plan is
not a MANUAL_INTERVENTION action. -/
theorem manual_intervention_last_witness :
    diagStep.action ≠ RecoveryAction.MANUAL_INTERVENTION.value :=
  (manual_intervention_last ("battery degradation") IncidentSeverity.LOW).2
    (by decide) diagStep (by decide)

/-- Counterexample for C7 as stated: when the analyzer has failed (fallback
cause) and severity is below CRITICAL, the generated plan is the diagnostic
step alone and contains no manual-intervention action. -/
theorem fallback_plan_no_manual_intervention :
    analyzeRootCause (Except.error ("connection timeout")) = rootCauseFallback
    ∧ generateRecoveryPlan rootCauseFallback IncidentSeverity.MEDIUM = [diagStep]
    ∧ diagStep.action ≠ RecoveryAction.MANUAL_INTERVENTION.value :=
  ⟨rfl, by decide, by decide⟩

/-- C7 (amended: the generic fallback plan contains the full diagnostic
step, and a manual-intervention action only when severity is at least
CRITICAL): when the analyzer fails it returns the fallback cause, which
matches no targeted rule, so the planner produces the generic plan — the
diagnostic step alone below CRITICAL, the diagnostic step plus
MANUAL_INTERVENTION at CRITICAL and above — and for every root cause and
severity the plan is nonempty and starts with the diagnostic step. -/
theorem fallback_plan_generic (sev : IncidentSeverity) :
    (∀ e, analyzeRootCause (Except.error e) = rootCauseFallback)
    ∧ (sev.value < IncidentSeverity.CRITICAL.value →
        generateRecoveryPlan rootCauseFallback sev = [diagStep])
    ∧ (IncidentSeverity.CRITICAL.value ≤ sev.value →
        generateRecoveryPlan rootCauseFallback sev = [diagStep, manualStep 1])
    ∧ (∀ rc, generateRecoveryPlan rc sev ≠ []
        ∧ (generateRecoveryPlan rc sev).head? = some diagStep) := by
  have hfb : targetedSteps rootCauseFallback = [] := by decide
  refine ⟨fun _ => rfl, ?_, ?_, ?_⟩
  · intro h
    unfold generateRecoveryPlan
    rw [if_neg (Nat.not_le.mpr h), hfb]
  · intro h
    unfold generateRecoveryPlan
    rw [if_pos h, hfb]
    rfl
  · intro rc
    unfold generateRecoveryPlan
    split_ifs <;> simp

/-- Witness for C7: the generic fallback plan at LOW severity is exactly the
diagnostic step. -/
theorem fallback_plan_generic_witness :
    generateRecoveryPlan rootCauseFallback IncidentSeverity.LOW = [diagStep] :=
  (fallback_plan_generic IncidentSeverity.LOW).2.1 (by decide)

/-- C6 (Scenario A): for a snapshot of a non-critical device with
`battery_voltage = 3.1` and every other metric present and in its normal
range, symptom detection yields exactly the one low-battery symptom, its
severity is MEDIUM, and every root cause mentioning battery yields a plan
containing the RESTART_SERVICE action that restarts the power management
service. -/
theorem scenario_A (did : Option String) (vt vh vp vm vc ve vw vu : ℚ)
    (hcrit : isCriticalDevice (scenarioASnapshot did vt vh vp vm vc ve vw vu) = false)
    (ht1 : vt ≤ 50) (ht2 : -10 ≤ vt)
    (hm1 : vm ≤ 90) (hc1 : vc ≤ 95) (he1 : ve ≤ 10)
    (hw1 : -80 ≤ vw) (hu1 : 0.1 ≤ vu) :
    detectSymptoms (scenarioASnapshot did vt vh vp vm vc ve vw vu)
      = ["Low battery voltage: " ++ toString (3.1 : ℚ) ++ "V"]
    ∧ assessSeverity (detectSymptoms (scenarioASnapshot did vt vh vp vm vc ve vw vu))
        (scenarioASnapshot did vt vh vp vm vc ve vw vu) = IncidentSeverity.MEDIUM
    ∧ ∀ rc, strContains (strToLower rc) ("battery") = true →
        ∃ st ∈ generateRecoveryPlan rc
            (assessSeverity (detectSymptoms (scenarioASnapshot did vt vh vp vm vc ve vw vu))
              (scenarioASnapshot did vt vh vp vm vc ve vw vu)),
          st.action = RecoveryAction.RESTART_SERVICE.value
          ∧ st.description = "Restart power management service" := by
  have c1 : (3.1 : ℚ) < 3.2 := by norm_num
  have c2 : ¬(50 < vt ∨ vt < -10) := by push_neg; exact ⟨ht1, ht2⟩
  have c3 : ¬(90 < vm) := not_lt.mpr hm1
  have c4 : ¬(95 < vc) := not_lt.mpr hc1
  have c5 : ¬(10 < ve) := not_lt.mpr he1
  have c6 : ¬(vw < -80) := not_lt.mpr hw1
  have c7 : ¬(vu < 0.1) := not_lt.mpr hu1
  have hd : detectSymptoms (scenarioASnapshot did vt vh vp vm vc ve vw vu)
      = ["Low battery voltage: " ++ toString (3.1 : ℚ) ++ "V"] := by
    simp only [detectSymptoms, scenarioASnapshot, Option.getD_some,
      if_pos c1, if_neg c2, if_neg c3, if_neg c4, if_neg c5, if_neg c6, if_neg c7,
      List.append_nil]
  have hsev : assessSeverity (detectSymptoms (scenarioASnapshot did vt vh vp vm vc ve vw vu))
      (scenarioASnapshot did vt vh vp vm vc ve vw vu) = IncidentSeverity.MEDIUM := by
    rw [hd]
    unfold assessSeverity severityScore
    rw [hcrit]
    have hb2 : baseScore ["Low battery voltage: " ++ toString (3.1 : ℚ) ++ "V"] = 2 := by
      decide
    rw [if_neg (by simp), hb2]
    decide
  refine ⟨hd, hsev, ?_⟩
  intro rc hrc
  refine ⟨batteryRestartStep, ?_, rfl, rfl⟩
  have hmem : batteryRestartStep ∈ diagStep :: targetedSteps rc := by
    simp only [targetedSteps, hrc, if_pos]
    simp
  unfold generateRecoveryPlan
  split_ifs
  · exact List.mem_append_left _ hmem
  · exact hmem

/-- Witness for C6: Scenario A applied to a concrete healthy-but-low-battery
snapshot of the non-critical device ESP32-001. -/
theorem scenario_A_witness :
    detectSymptoms (scenarioASnapshot (some ("ESP32-001")) 25 45 1013 50 50 0 (-60) 100)
      = ["Low battery voltage: " ++ toString (3.1 : ℚ) ++ "V"] :=
  (scenario_A (some ("ESP32-001")) 25 45 1013 50 50 0 (-60) 100 (by decide)
    (by norm_num) (by norm_num) (by norm_num) (by norm_num) (by norm_num)
    (by norm_num) (by norm_num)).1

/-- C8: for every incident and every behaviour of the external capability
calls — including raising ones — `execute_recovery` returns a
`RecoveryResult` (no exception escapes the orchestrator boundary), every
defined action handler converts a raised capability exception into a failed
`{success, status}` result instead of raising, and every plan step records
its action outcome entry in `actions_taken`. -/
theorem executor_boundary_total :
    (∀ (inc : IncidentReport) (env : ExecEnv),
        ∃ r, executeRecoveryE inc env = Except.ok r)
    ∧ (∀ (a : RecoveryAction) (e : String),
        (dispatchKnown a (Except.error e)).success = false
        ∧ (dispatchKnown a (Except.error e)).error = some e)
    ∧ (∀ (steps : List PlanStep) (benv : Nat → StepBehavior) (i : Nat)
          (hi : i < steps.length),
        stepFirstEntry (steps.get ⟨i, hi⟩) (benv i) ∈ (execSteps steps benv).actions) := by
  refine ⟨?_, fun a e => ⟨rfl, rfl⟩, ?_⟩
  · intro inc env
    unfold executeRecoveryE
    rcases env.impact with e | highRisk
    · exact ⟨_, rfl⟩
    · rcases env.finalVerify with e | ok
      · exact ⟨_, rfl⟩
      · exact ⟨_, rfl⟩
  · intro steps
    induction steps with
    | nil => intro benv i hi; simp at hi
    | cons st rest ih =>
      intro benv i hi
      cases i with
      | zero =>
        exact List.mem_append_left _ (stepFirstEntry_mem_runStep st (benv 0))
      | succ j =>
        exact List.mem_append_right _
          (ih (fun n => benv (n + 1)) j (Nat.lt_of_succ_lt_succ hi))

/-- Witness for C8: the entry of a plan step whose capability calls all
raise is recorded in the outcome of a concrete one-step run. -/
theorem executor_boundary_total_witness :
    stepFirstEntry diagStep demoBehavior
      ∈ (execSteps [diagStep] (fun _ => demoBehavior)).actions :=
  executor_boundary_total.2.2 [diagStep] (fun _ => demoBehavior) 0 (by decide)

/-- Counterexample for C9 as stated: a snapshot whose `device_id` key is
present (holding the empty string) and whose symptom list is nonempty still
makes `detect_incident` return no incident, because the Python truthiness
guard `if not device_id` also fires on the empty string. -/
theorem detect_none_on_empty_id :
    (detectIncident emptyIdSnapshot demoDetectEnv).1 = none
    ∧ emptyIdSnapshot.device_id ≠ none
    ∧ detectSymptoms emptyIdSnapshot ≠ [] :=
  ⟨rfl, by decide, List.ne_nil_of_mem (lowBattery_mem_detect emptyIdSnapshot rfl)⟩

/-- C9 (amended: "lacks a device_id" becomes "device_id missing or empty"):
`detect_incident` returns no incident exactly when the snapshot's device_id
is missing or empty or symptom detection yields the empty list; otherwise it
returns an incident whose device_id is the snapshot's and whose symptoms are
exactly the detected symptoms; and in the None case no incident record or
alert effect is produced. -/
theorem detect_incident_none_iff (dd : DeviceData) (env : DetectEnv) :
    ((detectIncident dd env).1 = none ↔
      dd.device_id = none ∨ dd.device_id = some ("") ∨ detectSymptoms dd = [])
    ∧ (∀ inc, (detectIncident dd env).1 = some inc →
        dd.device_id = some inc.device_id ∧ inc.symptoms = detectSymptoms dd)
    ∧ ((detectIncident dd env).1 = none → (detectIncident dd env).2 = []) := by
  cases hdv : dd.device_id with
  | none =>
    refine ⟨?_, ?_, ?_⟩ <;> simp [detectIncident, hdv]
  | some did =>
    by_cases hdid : did = ""
    · subst hdid
      refine ⟨?_, ?_, ?_⟩ <;> simp [detectIncident, hdv]
    · by_cases hsym : detectSymptoms dd = []
      · refine ⟨?_, ?_, ?_⟩ <;> simp [detectIncident, hdv, hdid, hsym]
      · refine ⟨?_, ?_, ?_⟩ <;> simp [detectIncident, hdv, hdid, hsym]

/-- Witness for C9: a snapshot with no device_id key yields no incident. -/
theorem detect_incident_none_iff_witness :
    (detectIncident blankSnapshot demoDetectEnv).1 = none :=
  (detect_incident_none_iff blankSnapshot demoDetectEnv).1.mpr (Or.inl rfl)

/-- C10: metrics missing from a snapshot default to 0 in symptom detection —
a snapshot omitting battery_voltage and uptime_hours gets a low-battery and
a frequent-reboots symptom, each omitted sensor reading (temperature,
humidity, pressure) gets an invalid-reading symptom, and a snapshot with a
device id and an empty metrics map opens an incident rather than being
treated as healthy. -/
theorem missing_metrics_default_zero (dd : DeviceData)
    (hb : dd.battery_voltage = none) (hu : dd.uptime_hours = none) :
    ("Low battery voltage: " ++ toString (0 : ℚ) ++ "V") ∈ detectSymptoms dd
    ∧ ("Frequent reboots detected: uptime " ++ toString (0 : ℚ) ++ "h") ∈ detectSymptoms dd
    ∧ (dd.temperature = none → "Invalid temperature reading: None" ∈ detectSymptoms dd)
    ∧ (dd.humidity = none → "Invalid humidity reading: None" ∈ detectSymptoms dd)
    ∧ (dd.pressure = none → "Invalid pressure reading: None" ∈ detectSymptoms dd)
    ∧ (∀ did env, did ≠ "" → dd.device_id = some did →
        ((detectIncident dd env).1).isSome = true) := by
  have hmem1 := lowBattery_mem_detect dd hb
  refine ⟨hmem1, frequentReboots_mem_detect dd hu, ?_, ?_, ?_, ?_⟩
  · intro ht; simp [detectSymptoms, ht, List.mem_append]
  · intro hh; simp [detectSymptoms, hh, List.mem_append]
  · intro hp; simp [detectSymptoms, hp, List.mem_append]
  · intro did env hne hdev
    have hnil : detectSymptoms dd ≠ [] := List.ne_nil_of_mem hmem1
    simp only [detectIncident, hdev]
    rw [if_neg hne, if_neg hnil]
    rfl

/-- Witness for C10: the low-battery symptom of the empty-metrics snapshot. -/
theorem missing_metrics_default_zero_witness :
    ("Low battery voltage: " ++ toString (0 : ℚ) ++ "V") ∈ detectSymptoms emptyMetricsSnapshot :=
  (missing_metrics_default_zero emptyMetricsSnapshot rfl rfl).1
